import Mathlib

/-!
Verification of the stt-client-ts stream/session core.

Shallow embedding of `src/stream.ts`, `src/types.ts` and the WAV loader
(`loadWav` / `silence`) against the natural-language specification.

Conventions of the embedding:
- JavaScript `null`/`undefined` optional fields become `Option`.
- The transcription queue element type is `Option Transcription`;
  the source comment says "null = end sentinel", so `none` is the sentinel.
- An inbound WebSocket text frame is modelled after `JSON.parse`: a value
  `Option RawMsg` where `none` stands for a payload on which `JSON.parse`
  throws (invalid JSON), and `some msg` is the parsed object with the
  fields the client reads.  Absent fields are `none`.
- JavaScript numbers in protocol fields are modelled as `Rat` (every value
  the client manipulates here is exact in both models).
- Byte buffers are `List Nat` (each entry one byte).
-/

/-- A transcription result, from `src/types.ts` (`interface Transcription`). -/
structure Transcription where
  text : String
  start : Option Rat
  «end» : Option Rat
  confidence : Option Rat
  isFinal : Bool
deriving DecidableEq

/-- Session info, from `src/types.ts` (`interface SessionInfo`). -/
structure SessionInfo where
  sessionId : String
  sessionKey : String
  wsUrl : String
  remainingSeconds : Rat
  minutes : Rat
  priceUsd : String
deriving DecidableEq

/-- A parsed inbound JSON frame: the fields `stream.ts` reads from
`JSON.parse(raw)`.  Fields absent from the JSON object are `none`. -/
structure RawMsg where
  type_ : Option String := none
  text : Option String := none
  start : Option Rat := none
  «end» : Option Rat := none
  confidence : Option Rat := none
  is_final : Option Bool := none
  remaining_seconds : Option Rat := none
  message : Option String := none
deriving DecidableEq

/-- `transcriptionFromMessage` from `src/types.ts`: `??` becomes `Option.getD`;
the `as` casts pass values through unchanged. -/
def transcriptionFromMessage (msg : RawMsg) : Transcription :=
  { text := msg.text.getD ""
    start := msg.start
    «end» := msg.«end»
    confidence := msg.confidence
    isFinal := msg.is_final.getD true }

/-- The terminal sentinel pushed into the queue: the source comment on
`_queue` says "null = end sentinel". -/
def endSentinel : Option Transcription := none

/-- A registered transcription callback (`onTranscription`).  `run t = true`
models the callback throwing on input `t`; `observed` records every value the
callback has been invoked with, in order. -/
structure CallbackReg where
  run : Transcription → Bool
  observed : List Transcription := []

/-- The mutable state of a `Stream` object (`src/stream.ts`), plus
observation fields: `sentFrames` records every `ws.send` payload in order,
`extendRequests` counts calls to `client._extendSession`, and `errorsLogged`
counts `console.error` emissions from caught callback or extension failures. -/
structure StreamState where
  info : SessionInfo
  language : String
  autoExtend : Bool
  closed : Bool := false
  extending : Bool := false
  queue : List (Option Transcription) := []
  waiters : List Nat := []
  callbacks : List CallbackReg := []
  sentFrames : List (List Nat) := []
  extendRequests : Nat := 0
  errorsLogged : Nat := 0

/-- `_push` from `stream.ts`: append the item to `_queue`, then wake the
first suspended waiter if any.  The woken waiter runs
`this._queue.shift() ?? null`; the second component reports which waiter was
woken and the value its pending pull resolves with. -/
def pushItem (s : StreamState) (item : Option Transcription) :
    StreamState × Option (Nat × Option Transcription) :=
  let q := s.queue ++ [item]
  match s.waiters with
  | [] => ({ s with queue := q }, none)
  | w :: rest =>
      ({ s with queue := q.tail, waiters := rest }, some (w, q.head?.getD none))

/-- `_push` viewed as a state transformer only. -/
def pushQ (s : StreamState) (item : Option Transcription) : StreamState :=
  (pushItem s item).1

/-- Start of `_pull` / `_pullWithTimeout` from `stream.ts`: if the queue is
non-empty, shift and resolve immediately (second component `some result`);
otherwise register a waiter with identifier `id` and suspend (`none`). -/
def pullStart (id : Nat) (s : StreamState) :
    StreamState × Option (Option Transcription) :=
  match s.queue with
  | x :: rest => ({ s with queue := rest }, some x)
  | [] => ({ s with waiters := s.waiters ++ [id] }, none)

/-- The `setTimeout` callback inside `_pullWithTimeout`: remove the waiter
from `_waiters` if still present (`indexOf` / `splice`), then
`resolve(null)`.  The second component is the value the pending pull
resolves with. -/
def pullTimeoutFire (id : Nat) (s : StreamState) :
    StreamState × Option Transcription :=
  ({ s with waiters := s.waiters.erase id }, none)

/-- The callback fan-out inside `_onMessage` for a transcription frame:
`for (const cb of this._callbacks) try { cb(t) } catch { console.error }`.
Every callback is invoked with `t` (recorded in `observed`); a throwing
callback only increments the error log and does not stop the loop. -/
def dispatchCallbacks (s : StreamState) (t : Transcription) : StreamState :=
  { s with
    callbacks := s.callbacks.map fun c => { c with observed := c.observed ++ [t] }
    errorsLogged := s.errorsLogged + s.callbacks.countP fun c => c.run t }

/-- The synchronous prefix of `_autoExtendSession`: set `_extending = true`
and issue one `client._extendSession(sessionId, 5)` request. -/
def autoExtendStart (s : StreamState) : StreamState :=
  { s with extending := true, extendRequests := s.extendRequests + 1 }

/-- The response shape of `client._extendSession` as read by
`_autoExtendSession` (`minutes_added`, `remaining_seconds`, `price_usd`). -/
structure ExtendResponse where
  minutes_added : Option Rat := none
  remaining_seconds : Option Rat := none
  price_usd : Option String := none
deriving DecidableEq

/-- Completion of `_autoExtendSession`: a success is only logged, a failure
is logged with `console.error`; the `finally` block clears `_extending`
either way.  Note the stored `SessionInfo` is not touched. -/
def autoExtendComplete (s : StreamState)
    (outcome : Except Unit ExtendResponse) : StreamState :=
  match outcome with
  | .ok _ => { s with extending := false }
  | .error _ => { s with extending := false, errorsLogged := s.errorsLogged + 1 }

/-- `_onMessage` from `stream.ts`.  `isBinary` frames are ignored; `raw =
none` models a payload on which `JSON.parse` throws (caught, frame ignored);
otherwise dispatch on the `type` field. -/
def onMessage (s : StreamState) (isBinary : Bool) (raw : Option RawMsg) :
    StreamState :=
  if isBinary then s
  else
    match raw with
    | none => s
    | some msg =>
        match msg.type_ with
        | some "transcription" =>
            let t := transcriptionFromMessage msg
            dispatchCallbacks (pushQ s (some t)) t
        | some "session_expiring" =>
            if s.autoExtend && !s.extending then autoExtendStart s else s
        | some "session_extended" => s
        | some "session_expired" => pushQ s none
        | some "error" => s
        | _ => s

/-- The connection-level `close` event handler `_onClose`: push the sentinel
if `_closed` is not set.  It does not set `_closed` itself. -/
def onCloseEvent (s : StreamState) : StreamState :=
  if s.closed then s else pushQ s none

/-- `close()` from `stream.ts`: return early when already closed, else set
`_closed`, push the sentinel, and call `ws.close()` inside `try/catch` —
`wsCloseFails` is an oracle for whether that underlying call throws; the
catch block swallows it, so the result is `.ok` in all cases.  The delivery
component reports a woken pending pull, as in `pushItem`. -/
def close (wsCloseFails : Bool) (s : StreamState) :
    Except Unit (StreamState × Option (Nat × Option Transcription)) :=
  if s.closed then .ok (s, none)
  else
    let r := pushItem { s with closed := true } none
    match (if wsCloseFails then Except.error () else Except.ok ()) with
    | .error _ => .ok r
    | .ok _ => .ok r

/-- `close()` viewed as a total state transformer (it never raises). -/
def closeTotal (wsCloseFails : Bool) (s : StreamState) : StreamState :=
  (((close wsCloseFails s).toOption).getD (s, none)).1

/-- `sendAudio` from `stream.ts`: throw `STTError "Stream is closed"` when
`_closed`, else forward the bytes to the socket immediately. -/
def sendAudio (s : StreamState) (data : List Nat) : Except String StreamState :=
  if s.closed then .error "Stream is closed"
  else .ok { s with sentFrames := s.sentFrames ++ [data] }

/-- Whether a `sendAudio` call succeeds (does not throw). -/
def sendSucceeds (s : StreamState) (data : List Nat) : Bool :=
  match sendAudio s data with
  | .ok _ => true
  | .error _ => false

/-- The three closing triggers of the spec: an explicit `close()` call (with
the oracle for the underlying socket close), a `session_expired` inbound
frame, and the connection-level close event. -/
inductive Trigger where
  | closeCall (wsCloseFails : Bool)
  | sessionExpired
  | connClose
deriving DecidableEq

/-- Apply one closing trigger, going through the real handlers. -/
def applyTrigger (s : StreamState) : Trigger → StreamState
  | .closeCall wf => closeTotal wf s
  | .sessionExpired => onMessage s false (some { type_ := some "session_expired" })
  | .connClose => onCloseEvent s

/-- Run a sequence of closing triggers. -/
def runTriggers (s : StreamState) : List Trigger → StreamState
  | [] => s
  | t :: ts => runTriggers (applyTrigger s t) ts

/-- Number of terminal sentinels currently in the queue. -/
def sentinelCount (q : List (Option Transcription)) : Nat :=
  q.countP fun x => x.isNone

/-- Whether a trigger is an explicit `close()` call. -/
def Trigger.isClose : Trigger → Bool
  | .closeCall _ => true
  | _ => false

/-- Whether a trigger is a `session_expired` frame. -/
def Trigger.isExpired : Trigger → Bool
  | .sessionExpired => true
  | _ => false

/-- Whether a trigger is a connection-level close event. -/
def Trigger.isConn : Trigger → Bool
  | .connClose => true
  | _ => false

/-- Number of `session_expired` frames in a trigger sequence. -/
def countExpired (ts : List Trigger) : Nat := ts.countP Trigger.isExpired

/-- Number of connection-close events occurring before the first explicit
`close()` call. -/
def countConnBefore (ts : List Trigger) : Nat :=
  (ts.takeWhile fun t => !t.isClose).countP Trigger.isConn

/-- A concrete session descriptor used for concrete runs. -/
def exInfo : SessionInfo :=
  { sessionId := "sess-1", sessionKey := "key-1",
    wsUrl := "wss://example/v1/stream", remainingSeconds := 120,
    minutes := 5, priceUsd := "0.025" }

/-- A freshly connected stream (state right after `_connect` resolves). -/
def initStream : StreamState :=
  { info := exInfo, language := "en", autoExtend := true }

/-- A stream with one pull suspended on an empty queue (waiter id 7). -/
def waitingStream : StreamState :=
  { initStream with waiters := [7] }

/-- A `session_expiring` warning frame with the given remaining seconds. -/
def expiringMsg (r : Rat) : RawMsg :=
  { type_ := some "session_expiring", remaining_seconds := some r }

/-- A concrete extension response used in concrete runs. -/
def exResp : ExtendResponse :=
  { minutes_added := some 5, remaining_seconds := some 300,
    price_usd := some "0.025" }

/-- Deliver a sequence of inbound text frames through `_onMessage`. -/
def processFrames (s : StreamState) (frames : List RawMsg) : StreamState :=
  frames.foldl (fun s m => onMessage s false (some m)) s

/-- What the async-iteration consumer (`transcriptions()`, built on `_pull`)
observes from a queue: every item before the first terminal sentinel. -/
def observedByIterator (q : List (Option Transcription)) : List Transcription :=
  (q.takeWhile fun x => x.isSome).reduceOption

/-- Outcome of handling the first inbound handshake message in `_connect`. -/
inductive HandshakeOutcome where
  | resolved (remaining : Rat)
  | rejectedServer (message : Option String)
  | rejectedUnexpected
  | rejectedTimeout
  | handlerThrew
deriving DecidableEq

/-- Observable result of a handshake continuation: how the open promise
settles, whether `ws.close()` was called, whether the 30-second timer was
cleared, and whether the steady-state `message`/`close` handlers were
installed. -/
structure HandshakeResult where
  outcome : HandshakeOutcome
  wsClosed : Bool
  timeoutCleared : Bool
  steadyHandlersInstalled : Bool
deriving DecidableEq

/-- The `once("message")` handler in `_connect`: `clearTimeout(timeout)` runs
first, then `JSON.parse(raw)` — modelled by `raw : Option RawMsg`, where
`none` means the parse throws; the exception escapes the handler uncaught,
so the promise settles neither way and the socket stays open.  For parsed
messages: an `error` type rejects with `STTError` and closes the socket; any
other non-`ready` type rejects with `STTError` and closes; `ready` resolves
with `remaining_seconds ?? info.remainingSeconds` and installs the
steady-state handlers. -/
def firstMessage (info : SessionInfo) (raw : Option RawMsg) : HandshakeResult :=
  match raw with
  | none =>
      { outcome := .handlerThrew, wsClosed := false, timeoutCleared := true,
        steadyHandlersInstalled := false }
  | some msg =>
      if msg.type_ = some "error" then
        { outcome := .rejectedServer msg.message, wsClosed := true,
          timeoutCleared := true, steadyHandlersInstalled := false }
      else if msg.type_ ≠ some "ready" then
        { outcome := .rejectedUnexpected, wsClosed := true,
          timeoutCleared := true, steadyHandlersInstalled := false }
      else
        { outcome := .resolved (msg.remaining_seconds.getD info.remainingSeconds),
          wsClosed := false, timeoutCleared := true,
          steadyHandlersInstalled := true }

/-- The 30-second `setTimeout` callback in `_connect`: close the socket and
reject with `ConnectionError`. -/
def handshakeTimeout : HandshakeResult :=
  { outcome := .rejectedTimeout, wsClosed := true, timeoutCleared := false,
    steadyHandlersInstalled := false }

/-- `BYTES_PER_SECOND` from the audio module: `SAMPLE_RATE * SAMPLE_WIDTH *
CHANNELS = 16000 * 2 * 1`. -/
def BYTES_PER_SECOND : Nat := 16000 * 2 * 1

/-- `chunkBytes` in `transcribeFile`:
`Math.floor(BYTES_PER_SECOND * CHUNK_MS / 1000)` with `CHUNK_MS = 20`; the
JavaScript float arithmetic is exact here, so the floor is Nat division. -/
def chunkBytes : Nat := BYTES_PER_SECOND * 20 / 1000

/-- The audio-chunk loop of `transcribeFile`: while `offset < pcmData.length`,
send `pcmData.subarray(offset, offset + chunkBytes)` (which clamps) and
advance `offset` by `chunkBytes`. -/
def streamChunks (pcm : List Nat) (offset : Nat) : List (List Nat) :=
  if offset < pcm.length then
    ((pcm.drop offset).take chunkBytes) :: streamChunks pcm (offset + chunkBytes)
  else []
termination_by pcm.length - offset
decreasing_by
  have hcb : 0 < chunkBytes := by decide
  omega

/-- `silence(durationSeconds)` from the audio module:
`Buffer.alloc(Math.floor(BYTES_PER_SECOND * durationSeconds))`, i.e.
that many zero bytes. -/
def silence (durationSeconds : Rat) : List Nat :=
  List.replicate (⌊(BYTES_PER_SECOND : Rat) * durationSeconds⌋).toNat 0

/-- The outbound audio frames of `transcribeFile` on validated PCM bytes:
the paced chunk loop, then exactly one trailing silence frame of
`TRAILING_SILENCE_SECONDS = 2.0` seconds, after which the drain loop
(`_pullWithTimeout`) starts. -/
def sentFileFrames (pcm : List Nat) : List (List Nat) :=
  streamChunks pcm 0 ++ [silence 2]

/-- The ascii bytes of the `"RIFF"` container magic. -/
def riffTag : List Nat := [82, 73, 70, 70]

/-- The ascii bytes of the `"WAVE"` form type. -/
def waveTag : List Nat := [87, 65, 86, 69]

/-- The ascii bytes of the `"fmt "` chunk id. -/
def fmtTag : List Nat := [102, 109, 116, 32]

/-- The ascii bytes of the `"data"` chunk id. -/
def dataTag : List Nat := [100, 97, 116, 97]

/-- `buf.subarray(a, b)` as a byte slice: clamps to the available bytes. -/
def sliceB (buf : List Nat) (a b : Nat) : List Nat :=
  (buf.drop a).take (b - a)

/-- `buf.toString("ascii", a, b)` as the list of character codes: Node ascii
decoding unsets the highest bit of each byte before decoding, so each byte
`x` decodes to code `x % 128` (buffer bytes are already reduced mod 256 and
128 divides 256, so `% 128` is exact).  Comparing the decoded string to a
7-bit tag string is comparing this list to the tag codes. -/
def asciiB (buf : List Nat) (a b : Nat) : List Nat :=
  ((buf.drop a).take (b - a)).map fun x => x % 128

/-- Node `readUInt16LE`: two little-endian bytes starting at `off`, or a
thrown `RangeError` (`none`) when fewer than 2 bytes remain past `off`
(Node checks `off + 2 <= buf.length`, which holds iff the byte list dropped
at `off` still has two elements). -/
def readU16 (buf : List Nat) (off : Nat) : Option Nat :=
  match buf.drop off with
  | b0 :: b1 :: _ => some (b0 + 256 * b1)
  | _ => none

/-- Node `readUInt32LE`: four little-endian bytes starting at `off`, or a
thrown `RangeError` (`none`) when fewer than 4 bytes remain past `off`. -/
def readU32 (buf : List Nat) (off : Nat) : Option Nat :=
  match buf.drop off with
  | b0 :: b1 :: b2 :: b3 :: _ =>
      some (b0 + 256 * b1 + 65536 * b2 + 16777216 * b3)
  | _ => none

/-- `readUInt32LE` at a position the chunk-scan loop guard has already
checked to be in bounds (`offset + 8 < buf.length` keeps the size read at
`offset + 4 .. offset + 8` inside the buffer, so the default is never
taken). -/
def readU32D (buf : List Nat) (off : Nat) : Nat :=
  (readU32 buf off).getD 0

/-- The chunk-scan loop of `loadWav` (`while (offset < buf.length - 8)`):
record the latest `fmt ` payload offset, stop at the first `data` chunk
returning its payload offset and declared size, otherwise skip
`8 + chunkSize` bytes.  Result: (fmt offset if found, data (offset, size) if
found). -/
def findChunks (buf : List Nat) (offset : Nat) (fmtAcc : Option Nat) :
    Option Nat × Option (Nat × Nat) :=
  if offset + 8 < buf.length then
    if asciiB buf offset (offset + 4) = fmtTag then
      findChunks buf (offset + 8 + readU32D buf (offset + 4))
        (some (offset + 8))
    else if asciiB buf offset (offset + 4) = dataTag then
      (fmtAcc, some (offset + 8, readU32D buf (offset + 4)))
    else
      findChunks buf (offset + 8 + readU32D buf (offset + 4)) fmtAcc
  else (fmtAcc, none)
termination_by buf.length - offset
decreasing_by
  all_goals omega

/-- The distinct `AudioFormatError` messages `loadWav` can throw. -/
inductive WavError where
  | fileNotFound
  | cannotRead
  | fileTooSmall
  | notValidWav
  | noFmtChunk
  | noDataChunk
  | notPCM (got : Nat)
  | wrongRate (got : Nat)
  | wrongChannels (got : Nat)
  | wrongBits (gotBits : Nat)
deriving DecidableEq

/-- Result of `loadWav`: success with the data-chunk bytes and the detected
format, an `AudioFormatError`, or a Node `RangeError` escaping from an
unguarded header read. -/
inductive WavResult where
  | ok (pcmData : List Nat) (sampleRate channels sampleWidth : Nat)
  | fmtError (e : WavError)
  | rangeError
deriving DecidableEq

/-- The format-descriptor reads and checks of `loadWav` once both chunks are
located: read `audioFormat`, `channels`, `sampleRate`, `bitsPerSample`
(any out-of-bounds read throws `RangeError`), then validate PCM, 16 kHz,
mono, 16-bit in that order; on success return
`buf.subarray(dataOffset, dataOffset + dataSize)` (which clamps) together
with the detected values (`sampleWidth = bitsPerSample / 8`). -/
def checkFmt (buf : List Nat) (fmtOff dataOff dataSize : Nat) : WavResult :=
  match readU16 buf fmtOff, readU16 buf (fmtOff + 2),
      readU32 buf (fmtOff + 4), readU16 buf (fmtOff + 14) with
  | some audioFormat, some channels, some sampleRate, some bits =>
      if audioFormat ≠ 1 then .fmtError (.notPCM audioFormat)
      else if sampleRate ≠ 16000 then .fmtError (.wrongRate sampleRate)
      else if channels ≠ 1 then .fmtError (.wrongChannels channels)
      else if bits ≠ 16 then .fmtError (.wrongBits bits)
      else .ok (sliceB buf dataOff (dataOff + dataSize)) sampleRate channels
        (bits / 8)
  | _, _, _, _ => .rangeError

/-- `loadWav` on the bytes of a readable file: header-size check, RIFF/WAVE
magic check (on the ascii-decoded, high-bit-stripped bytes), chunk scan from
offset 12, then the format checks. -/
def loadWavBytes (buf : List Nat) : WavResult :=
  if buf.length < 44 then .fmtError .fileTooSmall
  else if ¬(asciiB buf 0 4 = riffTag ∧ asciiB buf 8 12 = waveTag) then
    .fmtError .notValidWav
  else
    match findChunks buf 12 none with
    | (none, _) => .fmtError .noFmtChunk
    | (some _, none) => .fmtError .noDataChunk
    | (some fmtOff, some (dataOff, dataSize)) =>
        checkFmt buf fmtOff dataOff dataSize

/-- Result of `readFileSync`: the bytes, an ENOENT failure, or another read
failure. -/
inductive ReadResult where
  | content (bytes : List Nat)
  | missing
  | notReadable

/-- `loadWav` including the `readFileSync` wrapper: a missing file throws
`AudioFormatError "File not found"`, any other read failure throws
`AudioFormatError "Cannot read file"`. -/
def loadWav : ReadResult → WavResult
  | .missing => .fmtError .fileNotFound
  | .notReadable => .fmtError .cannotRead
  | .content b => loadWavBytes b

/-- A standard-layout WAV image: the 12-byte RIFF header (with arbitrary
declared riff size `s0..s3`), a 16-byte `fmt ` chunk whose fields are given
as little-endian bytes (`f` audio format, `c` channels, `r` sample rate,
`br` byte rate, `ba` block align, `b` bits per sample), then the `data`
chunk declaring size `d0..d3` with `data` as the bytes actually present. -/
def stdWav (s0 s1 s2 s3 f0 f1 c0 c1 r0 r1 r2 r3 br0 br1 br2 br3 ba0 ba1
    b0 b1 d0 d1 d2 d3 : Nat) (data : List Nat) : List Nat :=
  [82, 73, 70, 70, s0, s1, s2, s3, 87, 65, 86, 69,
   102, 109, 116, 32, 16, 0, 0, 0,
   f0, f1, c0, c1, r0, r1, r2, r3, br0, br1, br2, br3, ba0, ba1, b0, b1,
   100, 97, 116, 97, d0, d1, d2, d3] ++ data

/-- A 48-byte WAV image that passes every format check but whose data chunk
declares 100 bytes while only 4 are present. -/
def cexBuf : List Nat :=
  stdWav 40 0 0 0 1 0 1 0 128 62 0 0 0 125 0 0 2 0 16 0 100 0 0 0 [1, 2, 3, 4]

/-- A 60-byte WAV image with a non-standard chunk layout: a `LIST` chunk
(4 payload bytes) sits between the RIFF header and the `fmt ` chunk, and the
declared sample rate is 44100 Hz (bytes 68, 172). -/
def listBuf : List Nat :=
  [82, 73, 70, 70, 0, 0, 0, 0, 87, 65, 86, 69,
   76, 73, 83, 84, 4, 0, 0, 0, 9, 9, 9, 9,
   102, 109, 116, 32, 16, 0, 0, 0,
   1, 0, 1, 0, 68, 172, 0, 0, 136, 88, 1, 0, 2, 0, 16, 0,
   100, 97, 116, 97, 4, 0, 0, 0, 5, 6, 7, 8]

section HelperLemmas

@[simp]
theorem pushQ_info (s : StreamState) (item : Option Transcription) :
    (pushQ s item).info = s.info := by
  unfold pushQ pushItem
  cases s.waiters <;> rfl

@[simp]
theorem pushQ_closed (s : StreamState) (item : Option Transcription) :
    (pushQ s item).closed = s.closed := by
  unfold pushQ pushItem
  cases s.waiters <;> rfl

@[simp]
theorem pushQ_extending (s : StreamState) (item : Option Transcription) :
    (pushQ s item).extending = s.extending := by
  unfold pushQ pushItem
  cases s.waiters <;> rfl

@[simp]
theorem pushQ_autoExtend (s : StreamState) (item : Option Transcription) :
    (pushQ s item).autoExtend = s.autoExtend := by
  unfold pushQ pushItem
  cases s.waiters <;> rfl

@[simp]
theorem pushQ_extendRequests (s : StreamState) (item : Option Transcription) :
    (pushQ s item).extendRequests = s.extendRequests := by
  unfold pushQ pushItem
  cases s.waiters <;> rfl

@[simp]
theorem pushQ_callbacks (s : StreamState) (item : Option Transcription) :
    (pushQ s item).callbacks = s.callbacks := by
  unfold pushQ pushItem
  cases s.waiters <;> rfl

theorem pushQ_queue_of_no_waiters (s : StreamState) (item : Option Transcription)
    (h : s.waiters = []) : (pushQ s item).queue = s.queue ++ [item] := by
  unfold pushQ pushItem
  rw [h]

theorem pushQ_waiters_of_no_waiters (s : StreamState) (item : Option Transcription)
    (h : s.waiters = []) : (pushQ s item).waiters = [] := by
  unfold pushQ pushItem
  rw [h]

@[simp]
theorem dispatchCallbacks_info (s : StreamState) (t : Transcription) :
    (dispatchCallbacks s t).info = s.info := rfl

@[simp]
theorem dispatchCallbacks_closed (s : StreamState) (t : Transcription) :
    (dispatchCallbacks s t).closed = s.closed := rfl

@[simp]
theorem dispatchCallbacks_queue (s : StreamState) (t : Transcription) :
    (dispatchCallbacks s t).queue = s.queue := rfl

@[simp]
theorem dispatchCallbacks_waiters (s : StreamState) (t : Transcription) :
    (dispatchCallbacks s t).waiters = s.waiters := rfl

theorem sentinelCount_append (q : List (Option Transcription))
    (item : Option Transcription) :
    sentinelCount (q ++ [item]) =
      sentinelCount q + (if item.isNone then 1 else 0) := by
  unfold sentinelCount
  rw [List.countP_append]
  cases item <;> rfl

theorem onMessage_info (s : StreamState) (b : Bool) (raw : Option RawMsg) :
    (onMessage s b raw).info = s.info := by
  unfold onMessage
  split
  · rfl
  · split
    · rfl
    · split <;> simp [autoExtendStart] <;> split <;> simp [autoExtendStart]

theorem onMessage_closed (s : StreamState) (b : Bool) (raw : Option RawMsg) :
    (onMessage s b raw).closed = s.closed := by
  unfold onMessage
  split
  · rfl
  · split
    · rfl
    · split <;> simp [autoExtendStart] <;> split <;> simp [autoExtendStart]

theorem onCloseEvent_info (s : StreamState) : (onCloseEvent s).info = s.info := by
  unfold onCloseEvent
  split <;> simp

theorem onCloseEvent_closed (s : StreamState) :
    (onCloseEvent s).closed = s.closed := by
  unfold onCloseEvent
  split <;> simp

theorem close_of_closed (wf : Bool) (s : StreamState) (h : s.closed = true) :
    close wf s = Except.ok (s, none) := by
  unfold close
  rw [if_pos h]

theorem close_of_open (wf : Bool) (s : StreamState) (h : s.closed = false) :
    close wf s = Except.ok (pushItem { s with closed := true } none) := by
  unfold close
  rw [if_neg (by simp [h])]
  cases wf <;> rfl

theorem closeTotal_of_closed (wf : Bool) (s : StreamState) (h : s.closed = true) :
    closeTotal wf s = s := by
  unfold closeTotal
  rw [close_of_closed wf s h]
  rfl

theorem closeTotal_of_open (wf : Bool) (s : StreamState) (h : s.closed = false) :
    closeTotal wf s = pushQ { s with closed := true } none := by
  unfold closeTotal pushQ
  rw [close_of_open wf s h]
  rfl

theorem closeTotal_info (wf : Bool) (s : StreamState) :
    (closeTotal wf s).info = s.info := by
  cases h : s.closed
  · rw [closeTotal_of_open wf s h]
    simp
  · rw [closeTotal_of_closed wf s h]

theorem closeTotal_closed (wf : Bool) (s : StreamState) :
    (closeTotal wf s).closed = true := by
  cases h : s.closed
  · rw [closeTotal_of_open wf s h]
    simp
  · rw [closeTotal_of_closed wf s h, h]

theorem onMessage_expired_eq (s : StreamState) :
    onMessage s false (some { type_ := some "session_expired" }) = pushQ s none := by
  rfl

theorem runTriggers_of_closed (ts : List Trigger) :
    ∀ s : StreamState, s.closed = true → s.waiters = [] →
      sentinelCount (runTriggers s ts).queue =
        sentinelCount s.queue + countExpired ts := by
  induction ts with
  | nil =>
      intro s _ _
      simp [runTriggers, countExpired]
  | cons t ts ih =>
      intro s hc hw
      cases t with
      | closeCall wf =>
          have ha : applyTrigger s (Trigger.closeCall wf) = s := by
            simp [applyTrigger, closeTotal_of_closed wf s hc]
          simp only [runTriggers, ha, countExpired, List.countP_cons]
          rw [ih s hc hw]
          simp [Trigger.isExpired, countExpired]
      | sessionExpired =>
          have ha : applyTrigger s Trigger.sessionExpired = pushQ s none := by
            simp [applyTrigger, onMessage_expired_eq]
          simp only [runTriggers, ha]
          rw [ih (pushQ s none) (by rw [pushQ_closed, hc])
            (pushQ_waiters_of_no_waiters s none hw)]
          rw [pushQ_queue_of_no_waiters s none hw, sentinelCount_append]
          simp [countExpired, List.countP_cons, Trigger.isExpired]
          omega
      | connClose =>
          have ha : applyTrigger s Trigger.connClose = s := by
            simp [applyTrigger, onCloseEvent, hc]
          simp only [runTriggers, ha, countExpired, List.countP_cons]
          rw [ih s hc hw]
          simp [Trigger.isExpired, countExpired]

theorem runTriggers_of_open (ts : List Trigger) :
    ∀ s : StreamState, s.closed = false → s.waiters = [] →
      sentinelCount (runTriggers s ts).queue =
        sentinelCount s.queue + countExpired ts + countConnBefore ts +
          (if ts.any Trigger.isClose then 1 else 0) := by
  induction ts with
  | nil =>
      intro s _ _
      simp [runTriggers, countExpired, countConnBefore]
  | cons t ts ih =>
      intro s hc hw
      cases t with
      | closeCall wf =>
          have ha : applyTrigger s (Trigger.closeCall wf) =
              pushQ { s with closed := true } none := by
            simp [applyTrigger, closeTotal_of_open wf s hc]
          simp only [runTriggers, ha]
          rw [runTriggers_of_closed ts (pushQ { s with closed := true } none)
            (by simp [pushQ_closed])
            (pushQ_waiters_of_no_waiters { s with closed := true } none hw)]
          rw [pushQ_queue_of_no_waiters { s with closed := true } none hw,
            sentinelCount_append]
          simp [countExpired, countConnBefore, List.countP_cons,
            Trigger.isExpired, Trigger.isClose, Trigger.isConn,
            List.takeWhile_cons]
          omega
      | sessionExpired =>
          have ha : applyTrigger s Trigger.sessionExpired = pushQ s none := by
            simp [applyTrigger, onMessage_expired_eq]
          simp only [runTriggers, ha]
          rw [ih (pushQ s none) (by rw [pushQ_closed, hc])
            (pushQ_waiters_of_no_waiters s none hw)]
          rw [pushQ_queue_of_no_waiters s none hw, sentinelCount_append]
          simp [countExpired, countConnBefore, List.countP_cons,
            Trigger.isExpired, Trigger.isClose, Trigger.isConn,
            List.takeWhile_cons]
          omega
      | connClose =>
          have ha : applyTrigger s Trigger.connClose = pushQ s none := by
            simp [applyTrigger, onCloseEvent, hc]
          simp only [runTriggers, ha]
          rw [ih (pushQ s none) (by rw [pushQ_closed, hc])
            (pushQ_waiters_of_no_waiters s none hw)]
          rw [pushQ_queue_of_no_waiters s none hw, sentinelCount_append]
          simp [countExpired, countConnBefore, List.countP_cons,
            Trigger.isExpired, Trigger.isClose, Trigger.isConn,
            List.takeWhile_cons]
          omega

theorem onMessage_transcription_eq (s : StreamState) (m : RawMsg)
    (h : m.type_ = some "transcription") :
    onMessage s false (some m) =
      dispatchCallbacks (pushQ s (some (transcriptionFromMessage m)))
        (transcriptionFromMessage m) := by
  obtain ⟨ty, tx, st, en, cf, fin, rs, ms⟩ := m
  simp only at h
  subst h
  rfl

theorem onMessage_expiring_eq (s : StreamState) (r : Rat) :
    onMessage s false (some (expiringMsg r)) =
      if s.autoExtend && !s.extending then autoExtendStart s else s := rfl

theorem observedByIterator_map_some (l : List Transcription) :
    observedByIterator (l.map some) = l := by
  induction l with
  | nil => rfl
  | cons x xs ih =>
      simp only [observedByIterator] at ih
      simp [observedByIterator, List.takeWhile_cons,
        List.reduceOption_cons_of_some, ih]

theorem processFrames_spec (frames : List RawMsg) :
    ∀ s : StreamState, s.waiters = [] →
      (∀ m ∈ frames, m.type_ = some "transcription") →
      (processFrames s frames).queue =
          s.queue ++ frames.map (fun m => some (transcriptionFromMessage m)) ∧
      (processFrames s frames).callbacks =
          s.callbacks.map (fun c =>
            { c with
              observed := c.observed ++ frames.map transcriptionFromMessage }) ∧
      (processFrames s frames).errorsLogged =
          s.errorsLogged + (frames.map (fun m =>
            s.callbacks.countP fun c => c.run (transcriptionFromMessage m))).sum ∧
      (processFrames s frames).waiters = [] := by
  induction frames with
  | nil =>
      intro s hw _
      refine ⟨by simp [processFrames], ?_, by simp [processFrames], by
        simpa [processFrames] using hw⟩
      simp [processFrames]
  | cons m ms ih =>
      intro s hw hty
      have hm : m.type_ = some "transcription" := hty m (by simp)
      have hrest : ∀ x ∈ ms, x.type_ = some "transcription" := fun x hx =>
        hty x (by simp [hx])
      have h1 : processFrames s (m :: ms) =
          processFrames
            (dispatchCallbacks (pushQ s (some (transcriptionFromMessage m)))
              (transcriptionFromMessage m)) ms := by
        simp [processFrames, onMessage_transcription_eq s m hm]
      have hw1 : (dispatchCallbacks (pushQ s (some (transcriptionFromMessage m)))
          (transcriptionFromMessage m)).waiters = [] := by
        rw [dispatchCallbacks_waiters, pushQ_waiters_of_no_waiters s _ hw]
      obtain ⟨ihq, ihc, ihe, ihw⟩ := ih _ hw1 hrest
      rw [h1]
      refine ⟨?_, ?_, ?_, ihw⟩
      · rw [ihq]
        simp only [dispatchCallbacks_queue, List.map_cons]
        rw [pushQ_queue_of_no_waiters s _ hw, List.append_assoc]
        rfl
      · rw [ihc]
        simp only [dispatchCallbacks, pushQ_callbacks, List.map_map, List.map_cons]
        congr 1
        funext c
        simp
      · rw [ihe]
        simp only [dispatchCallbacks, pushQ_callbacks, List.map_cons, List.sum_cons]
        have h2 : ∀ x : RawMsg,
            ((s.callbacks.map fun c =>
                { c with observed := c.observed ++ [transcriptionFromMessage m] }).countP
              fun c => c.run (transcriptionFromMessage x)) =
            s.callbacks.countP fun c => c.run (transcriptionFromMessage x) := by
          intro x
          rw [List.countP_map]
          rfl
        simp only [h2]
        have h3 : (pushQ s (some (transcriptionFromMessage m))).errorsLogged =
            s.errorsLogged := by
          unfold pushQ pushItem
          cases s.waiters <;> rfl
        rw [h3]
        omega

theorem silence_two : silence 2 = List.replicate 64000 0 := by
  unfold silence
  norm_num [BYTES_PER_SECOND]
  decide

theorem streamChunks_join (pcm : List Nat) (offset : Nat) :
    (streamChunks pcm offset).flatten = pcm.drop offset := by
  rw [streamChunks]
  split
  · rename_i h
    rw [List.flatten_cons, streamChunks_join pcm (offset + chunkBytes),
      ← List.drop_drop, List.take_append_drop]
  · rename_i h
    rw [List.flatten_nil, List.drop_eq_nil_of_le (by omega)]
termination_by pcm.length - offset
decreasing_by
  have hcb : 0 < chunkBytes := by decide
  omega

theorem streamChunks_mem_length (pcm : List Nat) (offset : Nat) :
    ∀ c ∈ streamChunks pcm offset, 0 < c.length ∧ c.length ≤ chunkBytes := by
  rw [streamChunks]
  split
  · rename_i h
    intro c hc
    rcases List.mem_cons.mp hc with rfl | hmem
    · have hcb : 0 < chunkBytes := by decide
      rw [List.length_take, List.length_drop]
      omega
    · exact streamChunks_mem_length pcm (offset + chunkBytes) c hmem
  · intro c hc
    simp at hc
termination_by pcm.length - offset
decreasing_by
  have hcb : 0 < chunkBytes := by decide
  omega

theorem streamChunks_eq_nil (pcm : List Nat) (offset : Nat)
    (h : ¬ offset < pcm.length) : streamChunks pcm offset = [] := by
  rw [streamChunks, if_neg h]

theorem streamChunks_dropLast_length (pcm : List Nat) (offset : Nat) :
    ∀ c ∈ (streamChunks pcm offset).dropLast, c.length = chunkBytes := by
  rw [streamChunks]
  split
  · rename_i h
    cases hr : streamChunks pcm (offset + chunkBytes) with
    | nil =>
        intro c hc
        simp at hc
    | cons a as =>
        have h2 : offset + chunkBytes < pcm.length := by
          by_contra hn
          rw [streamChunks_eq_nil pcm (offset + chunkBytes) hn] at hr
          cases hr
        intro c hc
        rw [List.dropLast_cons₂] at hc
        rcases List.mem_cons.mp hc with rfl | hmem
        · rw [List.length_take, List.length_drop]
          omega
        · have := streamChunks_dropLast_length pcm (offset + chunkBytes)
          rw [hr] at this
          exact this c hmem
  · intro c hc
    simp at hc
termination_by pcm.length - offset
decreasing_by
  have hcb : 0 < chunkBytes := by decide
  omega

theorem checkFmt_eval (buf : List Nat) (fmtOff dataOff dataSize : Nat)
    (af ch sr bits : Nat)
    (h1 : readU16 buf fmtOff = some af)
    (h2 : readU16 buf (fmtOff + 2) = some ch)
    (h3 : readU32 buf (fmtOff + 4) = some sr)
    (h4 : readU16 buf (fmtOff + 14) = some bits) :
    checkFmt buf fmtOff dataOff dataSize =
      (if af ≠ 1 then .fmtError (.notPCM af)
       else if sr ≠ 16000 then .fmtError (.wrongRate sr)
       else if ch ≠ 1 then .fmtError (.wrongChannels ch)
       else if bits ≠ 16 then .fmtError (.wrongBits bits)
       else .ok (sliceB buf dataOff (dataOff + dataSize)) sr ch (bits / 8)) := by
  unfold checkFmt
  rw [h1, h2, h3, h4]

theorem loadWavBytes_eval (buf : List Nat) (fmtOff dataOff dataSize : Nat)
    (h44 : ¬ buf.length < 44)
    (hmagic : asciiB buf 0 4 = riffTag ∧ asciiB buf 8 12 = waveTag)
    (hfc : findChunks buf 12 none = (some fmtOff, some (dataOff, dataSize))) :
    loadWavBytes buf = checkFmt buf fmtOff dataOff dataSize := by
  unfold loadWavBytes
  rw [if_neg h44, if_neg (not_not_intro hmagic), hfc]

theorem loadWavBytes_noFmt (buf : List Nat) (r : Option (Nat × Nat))
    (h44 : ¬ buf.length < 44)
    (hmagic : asciiB buf 0 4 = riffTag ∧ asciiB buf 8 12 = waveTag)
    (hfc : findChunks buf 12 none = (none, r)) :
    loadWavBytes buf = WavResult.fmtError WavError.noFmtChunk := by
  unfold loadWavBytes
  rw [if_neg h44, if_neg (not_not_intro hmagic), hfc]

theorem loadWavBytes_noData (buf : List Nat) (fmtOff : Nat)
    (h44 : ¬ buf.length < 44)
    (hmagic : asciiB buf 0 4 = riffTag ∧ asciiB buf 8 12 = waveTag)
    (hfc : findChunks buf 12 none = (some fmtOff, none)) :
    loadWavBytes buf = WavResult.fmtError WavError.noDataChunk := by
  unfold loadWavBytes
  rw [if_neg h44, if_neg (not_not_intro hmagic), hfc]

theorem checkFmt_rangeError (buf : List Nat) (fmtOff dataOff dataSize : Nat)
    (h : readU16 buf fmtOff = none ∨ readU16 buf (fmtOff + 2) = none ∨
      readU32 buf (fmtOff + 4) = none ∨ readU16 buf (fmtOff + 14) = none) :
    checkFmt buf fmtOff dataOff dataSize = WavResult.rangeError := by
  unfold checkFmt
  rcases h1 : readU16 buf fmtOff with _ | af <;>
    rcases h2 : readU16 buf (fmtOff + 2) with _ | ch <;>
      rcases h3 : readU32 buf (fmtOff + 4) with _ | sr <;>
        rcases h4 : readU16 buf (fmtOff + 14) with _ | bits <;>
          first
          | rfl
          | simp_all

theorem loadWavBytes_ok_fields (buf p : List Nat) (r c w : Nat)
    (h : loadWavBytes buf = WavResult.ok p r c w) :
    r = 16000 ∧ c = 1 ∧ w = 2 := by
  unfold loadWavBytes at h
  split at h
  · simp at h
  · split at h
    · simp at h
    · split at h
      · simp at h
      · simp at h
      · unfold checkFmt at h
        split at h
        · split_ifs at h <;> simp_all
        · simp at h

end HelperLemmas

/-- C1 counterexample: in the interleaving where a `session_expired` frame
arrives and then `close()` is called, the terminal sentinel is pushed to the
queue twice, not exactly once — the `session_expired` handler pushes the
sentinel unconditionally and does not set `_closed`. -/
theorem C1_counterexample :
    sentinelCount
        (runTriggers initStream
          [Trigger.sessionExpired, Trigger.closeCall false]).queue = 2 := by
  rfl

/-- C1 (amended): over any interleaving of the three closing triggers, the
number of sentinels pushed equals (number of `session_expired` frames) +
(number of connection-close events before the first `close()` call) + (1 if
any `close()` call occurs); it is exactly one only when no `session_expired`
frame occurs and no connection-close event precedes the first `close()`.
`close()` itself never raises, and calling it any number of times pushes the
sentinel only on the first call, delivering it to a pending pull exactly
once. -/
theorem C1_sentinel_accounting :
    (∀ ts : List Trigger,
      sentinelCount (runTriggers initStream ts).queue =
        countExpired ts + countConnBefore ts +
          (if ts.any Trigger.isClose then 1 else 0)) ∧
    (∀ (wf : Bool) (s : StreamState), ∃ r, close wf s = Except.ok r) ∧
    close false waitingStream =
      Except.ok ({ waitingStream with closed := true, waiters := [] },
        some (7, endSentinel)) ∧
    close false { waitingStream with closed := true, waiters := [] } =
      Except.ok ({ waitingStream with closed := true, waiters := [] }, none) := by
  refine ⟨?_, ?_, rfl, rfl⟩
  · intro ts
    have h := runTriggers_of_open ts initStream rfl rfl
    simpa [initStream, sentinelCount] using h
  · intro wf s
    unfold close
    split
    · exact ⟨_, rfl⟩
    · cases wf <;> exact ⟨_, rfl⟩

/-- C2 counterexample: the "nothing arrived" result of an expired
`_pullWithTimeout` is `null`, the very same value as the terminal sentinel
(`null = end sentinel`), so it is not distinct from it. -/
theorem C2_counterexample :
    (pullTimeoutFire 0 (pullStart 0 initStream).1).2 = endSentinel := rfl

/-- C2 (amended): a `pullWithTimeout` that expires on an empty queue resolves
with `null` — the same value as the terminal sentinel, not a distinct one —
and has no side effects: the expired waiter is removed (the channel state is
exactly as before the call), an item pushed after the timeout stays in the
queue, and a later pull consumes it. -/
theorem C2_timeout_no_side_effects :
    ∀ (s : StreamState) (id : Nat) (t : Transcription),
      s.queue = [] → s.waiters = [] →
      (pullStart id s).2 = none ∧
      pullTimeoutFire id (pullStart id s).1 = (s, endSentinel) ∧
      (pushQ (pullTimeoutFire id (pullStart id s).1).1 (some t)).queue =
        [some t] ∧
      (pullStart (id + 1)
        (pushQ (pullTimeoutFire id (pullStart id s).1).1 (some t))).2 =
        some (some t) := by
  intro s id t hq hw
  obtain ⟨inf, lang, ae, cl, ext, q, w, cbs, sf, er, el⟩ := s
  simp only at hq hw
  subst hq hw
  refine ⟨rfl, ?_, ?_, ?_⟩
  · simp [pullStart, pullTimeoutFire, endSentinel]
  · simp [pullStart, pullTimeoutFire, pushQ, pushItem]
  · simp [pullStart, pullTimeoutFire, pushQ, pushItem]

/-- C2 witness: the amended timeout behaviour at a concrete channel state. -/
theorem C2_witness :
    pullTimeoutFire 3 (pullStart 3 initStream).1 = (initStream, endSentinel) :=
  (C2_timeout_no_side_effects initStream 3
    { text := "x", start := none, «end» := none, confidence := none,
      isFinal := true } rfl rfl).2.1

/-- C3 counterexample: after a successful extension whose response carries
`remaining_seconds = 300`, the stored descriptor still reports its original
remaining time (120) — the stream only logs the response and never updates
the descriptor. -/
theorem C3_counterexample :
    (autoExtendComplete { initStream with extending := true }
        (Except.ok exResp)).info.remainingSeconds = 120 ∧
    exResp.remaining_seconds = some 300 ∧ (120 : Rat) ≠ 300 :=
  ⟨rfl, rfl, by norm_num⟩

/-- C3 (amended): the stream never mutates or supersedes the stored session
descriptor at all — not even on a successful extension response, which is
only logged; every stream operation preserves `_info`. -/
theorem C3_descriptor_immutable :
    ∀ (s : StreamState) (b : Bool) (raw : Option RawMsg)
      (o : Except Unit ExtendResponse) (wf : Bool) (d : List Nat)
      (item : Option Transcription) (id : Nat),
      (onMessage s b raw).info = s.info ∧
      (autoExtendComplete s o).info = s.info ∧
      (onCloseEvent s).info = s.info ∧
      (closeTotal wf s).info = s.info ∧
      (pushQ s item).info = s.info ∧
      ((pullStart id s).1).info = s.info ∧
      ((pullTimeoutFire id s).1).info = s.info ∧
      (∀ s2, sendAudio s d = Except.ok s2 → s2.info = s.info) := by
  intro s b raw o wf d item id
  refine ⟨onMessage_info s b raw, ?_, onCloseEvent_info s, closeTotal_info wf s,
    pushQ_info s item, ?_, rfl, ?_⟩
  · cases o <;> rfl
  · unfold pullStart
    cases s.queue <;> rfl
  · intro s2 h
    unfold sendAudio at h
    split at h
    · cases h
    · cases h
      rfl

/-- C3 witness: a concrete stream operation leaving the descriptor intact. -/
theorem C3_witness :
    ({ initStream with sentFrames := [[9]] } : StreamState).info =
      initStream.info :=
  (C3_descriptor_immutable initStream false none (Except.error ()) false [9]
    none 0).2.2.2.2.2.2.2 { initStream with sentFrames := [[9]] } rfl

/-- C6: a `session_expiring` warning while auto-extend is disabled or while
an extension is in flight issues no request and changes nothing; two warnings
in rapid succession from an idle active state issue exactly one extension
request (the first sets the in-flight guard, the second is dropped); the
guard clears on completion whether the extension succeeds or fails, so at
most one extension is ever in flight. -/
theorem C6_single_extension :
    (∀ (s : StreamState) (r : Rat), s.extending = true →
      onMessage s false (some (expiringMsg r)) = s) ∧
    (∀ (s : StreamState) (r : Rat), s.autoExtend = false →
      onMessage s false (some (expiringMsg r)) = s) ∧
    (∀ (s : StreamState) (r1 r2 : Rat),
      s.autoExtend = true → s.extending = false →
      (onMessage (onMessage s false (some (expiringMsg r1))) false
          (some (expiringMsg r2))).extendRequests = s.extendRequests + 1 ∧
      (onMessage (onMessage s false (some (expiringMsg r1))) false
          (some (expiringMsg r2))).extending = true) ∧
    (∀ (s : StreamState) (o : Except Unit ExtendResponse),
      (autoExtendComplete s o).extending = false) := by
  refine ⟨?_, ?_, ?_, ?_⟩
  · intro s r h
    rw [onMessage_expiring_eq, if_neg (by simp [h])]
  · intro s r h
    rw [onMessage_expiring_eq, if_neg (by simp [h])]
  · intro s r1 r2 ha he
    have h1 : onMessage s false (some (expiringMsg r1)) = autoExtendStart s := by
      rw [onMessage_expiring_eq, if_pos (by simp [ha, he])]
    have h2 : onMessage (autoExtendStart s) false (some (expiringMsg r2)) =
        autoExtendStart s := by
      rw [onMessage_expiring_eq, if_neg (by simp [autoExtendStart])]
    rw [h1, h2]
    simp [autoExtendStart]
  · intro s o
    cases o <;> rfl

/-- C6 witness: two rapid warnings on a fresh auto-extend stream issue
exactly one extension request. -/
theorem C6_witness :
    (onMessage (onMessage initStream false (some (expiringMsg 30))) false
        (some (expiringMsg 20))).extendRequests = 1 := by
  have h := (C6_single_extension.2.2.1 initStream 30 20 rfl rfl).1
  simpa [initStream] using h

/-- C7: a sequence of N inbound transcription frames is observed in full,
in arrival order, exactly once, both by the pull/iteration consumer (the
queue receives exactly the N parsed transcriptions, in order) and by every
registered callback (each callback record is extended by exactly those N
parsed transcriptions, in order, regardless of which callbacks throw); each
throwing callback invocation only adds one logged error, never aborting
dispatch, other callbacks, or the queue push. -/
theorem C7_fanout :
    ∀ (frames : List RawMsg) (s : StreamState),
      s.waiters = [] →
      (∀ m ∈ frames, m.type_ = some "transcription") →
      (processFrames s frames).queue =
          s.queue ++ frames.map (fun m => some (transcriptionFromMessage m)) ∧
      (processFrames s frames).callbacks =
          s.callbacks.map (fun c =>
            { c with
              observed := c.observed ++ frames.map transcriptionFromMessage }) ∧
      (s.queue = [] →
        observedByIterator (processFrames s frames).queue =
          frames.map transcriptionFromMessage) ∧
      (processFrames s frames).errorsLogged =
          s.errorsLogged + (frames.map (fun m =>
            s.callbacks.countP fun c => c.run (transcriptionFromMessage m))).sum := by
  intro frames s hw hty
  obtain ⟨hq, hc, he, _⟩ := processFrames_spec frames s hw hty
  refine ⟨hq, hc, ?_, he⟩
  intro hq0
  rw [hq, hq0, List.nil_append]
  have : frames.map (fun m => some (transcriptionFromMessage m)) =
      (frames.map transcriptionFromMessage).map some := by
    rw [List.map_map]
    rfl
  rw [this, observedByIterator_map_some]

/-- C7 witness: two concrete transcription frames delivered to a stream with
one well-behaved and one throwing callback. -/
theorem C7_witness :
    (processFrames
        { initStream with
          callbacks := [{ run := fun _ => false }, { run := fun _ => true }] }
        [{ type_ := some "transcription", text := some "a" },
         { type_ := some "transcription", text := some "b",
           is_final := some false }]).queue =
      [some { text := "a", start := none, «end» := none, confidence := none,
              isFinal := true },
       some { text := "b", start := none, «end» := none, confidence := none,
              isFinal := false }] := by
  have h := (C7_fanout
    [{ type_ := some "transcription", text := some "a" },
     { type_ := some "transcription", text := some "b",
       is_final := some false }]
    { initStream with
      callbacks := [{ run := fun _ => false }, { run := fun _ => true }] }
    rfl (by intro m hm; fin_cases hm <;> rfl)).1
  simpa [initStream, transcriptionFromMessage] using h

/-- C9 counterexample: after a `session_expired` frame (with no explicit
`close()` call) the stream is in a closed-session state, yet `sendAudio`
does not fail — the handler never sets `_closed`, so the bytes are handed to
the defunct socket. -/
theorem C9_counterexample :
    (onMessage initStream false
        (some { type_ := some "session_expired" })).closed = false ∧
    sendSucceeds
      (onMessage initStream false (some { type_ := some "session_expired" }))
      [1, 2] = true :=
  ⟨rfl, rfl⟩

/-- C9 (amended): `sendAudio` fails loudly and immediately exactly when the
`_closed` flag is set, and otherwise forwards the raw bytes to the socket
immediately and unpaced; but `_closed` is set only by an explicit `close()`
call — neither any inbound frame (including `session_expired`) nor the
connection-close event sets it, so after those events `sendAudio` still
succeeds. -/
theorem C9_sendAudio_amended :
    (∀ (s : StreamState) (d : List Nat), s.closed = true →
      sendAudio s d = Except.error "Stream is closed") ∧
    (∀ (s : StreamState) (d : List Nat), s.closed = false →
      sendAudio s d = Except.ok { s with sentFrames := s.sentFrames ++ [d] }) ∧
    (∀ (s : StreamState) (b : Bool) (raw : Option RawMsg),
      (onMessage s b raw).closed = s.closed) ∧
    (∀ s : StreamState, (onCloseEvent s).closed = s.closed) ∧
    (∀ (wf : Bool) (s : StreamState), (closeTotal wf s).closed = true) := by
  refine ⟨?_, ?_, onMessage_closed, onCloseEvent_closed, closeTotal_closed⟩
  · intro s d h
    unfold sendAudio
    rw [if_pos h]
  · intro s d h
    unfold sendAudio
    rw [if_neg (by simp [h])]

/-- C9 witness: `sendAudio` on an explicitly closed stream throws. -/
theorem C9_witness :
    sendAudio { initStream with closed := true } [5] =
      Except.error "Stream is closed" :=
  C9_sendAudio_amended.1 { initStream with closed := true } [5] rfl

/-- C10: the file-streaming path sends the validated PCM bytes as in-order
chunks — every chunk except possibly the last has exactly 640 bytes
(`chunkBytes`), every chunk is non-empty and at most 640 bytes, and their
concatenation is exactly the input — followed by exactly one trailing
silence frame of 64000 zero bytes (2 seconds at 32000 bytes/second), after
which the drain phase begins. -/
theorem C10_file_streaming :
    ∀ pcm : List Nat,
      sentFileFrames pcm = streamChunks pcm 0 ++ [List.replicate 64000 0] ∧
      (streamChunks pcm 0).flatten = pcm ∧
      (∀ c ∈ (streamChunks pcm 0).dropLast, c.length = 640) ∧
      (∀ c ∈ streamChunks pcm 0, 0 < c.length ∧ c.length ≤ 640) := by
  intro pcm
  have hcb : chunkBytes = 640 := by decide
  refine ⟨?_, ?_, ?_, ?_⟩
  · unfold sentFileFrames
    rw [silence_two]
  · rw [streamChunks_join pcm 0, List.drop_zero]
  · rw [← hcb]
    exact streamChunks_dropLast_length pcm 0
  · rw [← hcb]
    exact streamChunks_mem_length pcm 0

/-- C10 witness: a 3-byte input is sent as a single short final chunk, which
is non-empty and within the 640-byte bound. -/
theorem C10_witness :
    0 < ([1, 2, 3] : List Nat).length ∧ ([1, 2, 3] : List Nat).length ≤ 640 := by
  have hs : streamChunks [1, 2, 3] 0 = [[1, 2, 3]] := by
    rw [streamChunks, if_pos (by decide), streamChunks, if_neg (by decide)]
    decide
  have h := (C10_file_streaming [1, 2, 3]).2.2.2
  rw [hs] at h
  exact h [1, 2, 3] (by simp)

/-- C5 counterexample: a WAV image whose header passes every check but
whose data chunk declares 100 bytes while only 4 are present is NOT
rejected — `subarray` clamps, so `loadWav` returns the 4 truncated bytes as
a success, i.e. partial data with no `AudioFormatError`. -/
theorem C5_counterexample :
    loadWavBytes cexBuf = WavResult.ok [1, 2, 3, 4] 16000 1 2 ∧
    (∀ e, loadWavBytes cexBuf ≠ WavResult.fmtError e) ∧
    ([1, 2, 3, 4] : List Nat).length < 100 := by
  have hfc : findChunks cexBuf 12 none = (some 20, some (44, 100)) := by
    rw [findChunks, if_pos (by decide), if_pos (by decide)]
    show findChunks cexBuf 36 (some 20) = _
    rw [findChunks, if_pos (by decide), if_neg (by decide), if_pos (by decide)]
    decide
  have h : loadWavBytes cexBuf = WavResult.ok [1, 2, 3, 4] 16000 1 2 := by
    rw [loadWavBytes_eval cexBuf 20 44 100 (by decide) ⟨by decide, by decide⟩
        hfc,
      checkFmt_eval cexBuf 20 44 100 1 1 16000 16 (by decide) (by decide)
        (by decide) (by decide)]
    decide
  refine ⟨h, ?_, by decide⟩
  intro e he
  rw [h] at he
  cases he

/-- C5 (amended): an unreadable file, a file smaller than 44 bytes, and a
file whose high-bit-stripped ascii magic is not RIFF/WAVE each fail with
the corresponding `AudioFormatError`, as does a scan (over an arbitrary
chunk layout) that finds no `fmt ` or no `data` chunk; whenever the scan
locates both chunks and the four format-descriptor reads are in bounds, the
checks classify non-PCM encoding, wrong sample rate, wrong channel count
and wrong bit depth, each failing with its own `AudioFormatError`, and on
success `loadWav` returns sample rate 16000, channel count 1 and sample
width 2 together with the data-chunk bytes clamped to the bytes actually
present — so a truncated data chunk (declared size exceeding the available
bytes) is NOT detected and yields partial data without an error; and when a
located `fmt ` chunk has its descriptor fields outside the buffer, the code
throws a raw Node `RangeError`, not an `AudioFormatError`. -/
theorem C5_loadWav_amended :
    (loadWav ReadResult.missing = WavResult.fmtError WavError.fileNotFound ∧
     loadWav ReadResult.notReadable = WavResult.fmtError WavError.cannotRead) ∧
    (∀ (buf p : List Nat) (r c w : Nat),
      loadWavBytes buf = WavResult.ok p r c w →
      r = 16000 ∧ c = 1 ∧ w = 2) ∧
    (∀ buf : List Nat, buf.length < 44 →
      loadWavBytes buf = WavResult.fmtError WavError.fileTooSmall) ∧
    (∀ buf : List Nat, ¬ buf.length < 44 →
      ¬(asciiB buf 0 4 = riffTag ∧ asciiB buf 8 12 = waveTag) →
      loadWavBytes buf = WavResult.fmtError WavError.notValidWav) ∧
    (∀ (buf : List Nat) (r : Option (Nat × Nat)), ¬ buf.length < 44 →
      (asciiB buf 0 4 = riffTag ∧ asciiB buf 8 12 = waveTag) →
      findChunks buf 12 none = (none, r) →
      loadWavBytes buf = WavResult.fmtError WavError.noFmtChunk) ∧
    (∀ (buf : List Nat) (fmtOff : Nat), ¬ buf.length < 44 →
      (asciiB buf 0 4 = riffTag ∧ asciiB buf 8 12 = waveTag) →
      findChunks buf 12 none = (some fmtOff, none) →
      loadWavBytes buf = WavResult.fmtError WavError.noDataChunk) ∧
    (∀ (buf : List Nat) (fmtOff dataOff dataSize af ch sr bits : Nat),
      ¬ buf.length < 44 →
      (asciiB buf 0 4 = riffTag ∧ asciiB buf 8 12 = waveTag) →
      findChunks buf 12 none = (some fmtOff, some (dataOff, dataSize)) →
      readU16 buf fmtOff = some af →
      readU16 buf (fmtOff + 2) = some ch →
      readU32 buf (fmtOff + 4) = some sr →
      readU16 buf (fmtOff + 14) = some bits →
      loadWavBytes buf =
        (if af ≠ 1 then WavResult.fmtError (WavError.notPCM af)
         else if sr ≠ 16000 then WavResult.fmtError (WavError.wrongRate sr)
         else if ch ≠ 1 then WavResult.fmtError (WavError.wrongChannels ch)
         else if bits ≠ 16 then WavResult.fmtError (WavError.wrongBits bits)
         else WavResult.ok (sliceB buf dataOff (dataOff + dataSize)) sr ch
           (bits / 8))) ∧
    (∀ (buf : List Nat) (fmtOff dataOff dataSize : Nat),
      ¬ buf.length < 44 →
      (asciiB buf 0 4 = riffTag ∧ asciiB buf 8 12 = waveTag) →
      findChunks buf 12 none = (some fmtOff, some (dataOff, dataSize)) →
      (readU16 buf fmtOff = none ∨ readU16 buf (fmtOff + 2) = none ∨
       readU32 buf (fmtOff + 4) = none ∨ readU16 buf (fmtOff + 14) = none) →
      loadWavBytes buf = WavResult.rangeError) := by
  refine ⟨⟨rfl, rfl⟩, loadWavBytes_ok_fields, ?_, ?_, loadWavBytes_noFmt,
    loadWavBytes_noData, ?_, ?_⟩
  · intro buf h
    unfold loadWavBytes
    rw [if_pos h]
  · intro buf h44 hm
    unfold loadWavBytes
    rw [if_neg h44, if_pos hm]
  · intro buf fmtOff dataOff dataSize af ch sr bits h44 hm hfc h1 h2 h3 h4
    rw [loadWavBytes_eval buf fmtOff dataOff dataSize h44 hm hfc,
      checkFmt_eval buf fmtOff dataOff dataSize af ch sr bits h1 h2 h3 h4]
  · intro buf fmtOff dataOff dataSize h44 hm hfc h
    rw [loadWavBytes_eval buf fmtOff dataOff dataSize h44 hm hfc]
    exact checkFmt_rangeError buf fmtOff dataOff dataSize h

/-- C5 witness: a WAV with a non-standard chunk layout (a LIST chunk before
`fmt `) declaring a 44100 Hz sample rate is classified as a wrong-rate
`AudioFormatError` through the general classification conjunct. -/
theorem C5_witness :
    loadWavBytes listBuf = WavResult.fmtError (WavError.wrongRate 44100) := by
  have hfc : findChunks listBuf 12 none = (some 32, some (56, 4)) := by
    rw [findChunks, if_pos (by decide), if_neg (by decide), if_neg (by decide)]
    show findChunks listBuf 24 none = _
    rw [findChunks, if_pos (by decide), if_pos (by decide)]
    show findChunks listBuf 48 (some 32) = _
    rw [findChunks, if_pos (by decide), if_neg (by decide), if_pos (by decide)]
    decide
  have h := C5_loadWav_amended.2.2.2.2.2.2.1 listBuf 32 56 4 1 1 44100 16
    (by decide) ⟨by decide, by decide⟩ hfc (by decide) (by decide) (by decide)
    (by decide)
  rw [h]
  decide

/-- C4 (code bug): evaluating the handshake handler — a `ready` first frame
resolves with the reported remaining seconds; an `error` frame rejects and
closes the socket; any other message type rejects and closes; but a first
frame that is not valid JSON makes the handler throw after the 30-second
timer was already cleared, so the open operation neither rejects nor tears
the connection down, contradicting the claim for malformed frames. -/
theorem C4_handshake_eval :
    firstMessage exInfo
        (some { type_ := some "ready", remaining_seconds := some 300 }) =
      { outcome := .resolved 300, wsClosed := false, timeoutCleared := true,
        steadyHandlersInstalled := true } ∧
    firstMessage exInfo
        (some { type_ := some "error", message := some "boom" }) =
      { outcome := .rejectedServer (some "boom"), wsClosed := true,
        timeoutCleared := true, steadyHandlersInstalled := false } ∧
    firstMessage exInfo (some { type_ := some "transcription" }) =
      { outcome := .rejectedUnexpected, wsClosed := true,
        timeoutCleared := true, steadyHandlersInstalled := false } ∧
    firstMessage exInfo none =
      { outcome := .handlerThrew, wsClosed := false, timeoutCleared := true,
        steadyHandlersInstalled := false } :=
  ⟨rfl, rfl, rfl, rfl⟩

/-- C8: parsing `{type:"transcription", text:"hello", is_final:false}` yields
`{text:"hello", isFinal:false, start/end/confidence: undefined}`, and parsing
`{type:"transcription"}` yields `{text:"", isFinal:true}`. -/
theorem C8_parse_defaults :
    transcriptionFromMessage
        { type_ := some "transcription", text := some "hello",
          is_final := some false } =
      { text := "hello", isFinal := false, start := none, «end» := none,
        confidence := none } ∧
    transcriptionFromMessage { type_ := some "transcription" } =
      { text := "", isFinal := true, start := none, «end» := none,
        confidence := none } :=
  ⟨rfl, rfl⟩
